import Mathlib

/-!
Shallow embedding of the `rust-error-management` repository
(`src/main.rs`): an error type `OurError` that carries a payload
(`specifics`), a stack snapshot (`backtrace`), and at most one outgoing
relation to another error, which is either `Previous` (an earlier,
unrelated error) or `Constituent` (a wrapped lower-level cause).
Relation targets are stored behind the erased `dyn Error` capability,
modelled here by the closed sum `DynError` over the two concrete error
types that occur in the program (`OurError` itself and the foreign
`std::io::Error`); Rust's `downcast_ref` becomes a pattern match on that
sum.
-/

namespace ErrMgmt

/-- The `backtrace::Backtrace` stack snapshot, modelled opaquely: the
capture is an external, non-failing call whose contents no claim
inspects. -/
structure Backtrace where
  frames : List Nat
  deriving DecidableEq, Repr

/-- Models `Backtrace::new()`, the one-time capture at construction. -/
def Backtrace.new : Backtrace := ⟨[]⟩

/-- `enum OurErrorKind` from `src/main.rs`.  `PathBuf` is modelled as the
path string (the program only ever renders it lossily). -/
inductive OurErrorKind where
  | ContextInitError
  | InvalidArgument (description : String)
  | IoctlError (device_info : String)
  | IoctlResultTooLarge
  | MetadataIoError (path : String)
  deriving DecidableEq, Repr

/-- `impl Display for OurErrorKind`: the rendered message of each
variant, string for string from the source. -/
def OurErrorKind.fmt : OurErrorKind → String
  | .ContextInitError => "DM context not initialized"
  | .InvalidArgument description => "invalid argument: " ++ description
  | .IoctlError device_info => "ioctl error, device info: " ++ device_info
  | .IoctlResultTooLarge =>
      "ioctl result too large for maximum buffer size 4294967295 bytes"
  | .MetadataIoError path => "failed to stat metadata for device at " ++ path

/-- The fragment of `std::io::ErrorKind` the program uses. -/
inductive IoErrorKind where
  | Other
  deriving DecidableEq, Repr

/-- The foreign `std::io::Error` as the program constructs it:
`std::io::Error::new(kind, msg)`. -/
structure IoError where
  kind : IoErrorKind
  msg : String
  deriving DecidableEq, Repr

mutual

/-- The erased `Box<dyn std::error::Error>` capability, closed over the
two concrete error types of the program. -/
inductive DynError where
  | ours (e : OurError)
  | io (e : IoError)

/-- `enum Suberror` from `src/main.rs`: what relation the component
error has to its parent. -/
inductive Suberror where
  | Previous (e : DynError)
  | Constituent (e : DynError)

/-- `struct OurError` from `src/main.rs`. -/
inductive OurError where
  | mk (source_impl : Option Suberror) (backtrace : Backtrace)
      (specifics : OurErrorKind)

end

/-- Field projection for `OurError.source_impl`. -/
def OurError.source_impl : OurError → Option Suberror
  | .mk s _ _ => s

/-- Field projection for `OurError.backtrace`. -/
def OurError.backtrace : OurError → Backtrace
  | .mk _ b _ => b

/-- Field projection for `OurError.specifics`. -/
def OurError.specifics : OurError → OurErrorKind
  | .mk _ _ k => k

/-- `OurError::new`: fresh error, no relation, snapshot captured now. -/
def OurError.new (kind : OurErrorKind) : OurError :=
  .mk none Backtrace.new kind

/-- `OurError::our_backtrace`. -/
def OurError.our_backtrace (self : OurError) : Option Backtrace :=
  some self.backtrace

/-- `OurError::set_extension` (the spec's `extend_with`): sets the
argument's relation to `Constituent(self)` and returns the argument. -/
def OurError.set_extension (self extension : OurError) : OurError :=
  match extension with
  | .mk _ b k => .mk (some (Suberror.Constituent (DynError.ours self))) b k

/-- `OurError::set_subsequent` (the spec's `followed_by`): sets the
argument's relation to `Previous(self)` and returns the argument. -/
def OurError.set_subsequent (self subsequent : OurError) : OurError :=
  match subsequent with
  | .mk _ b k => .mk (some (Suberror.Previous (DynError.ours self))) b k

/-- `OurError::set_constituent`: in-place setter, modelled by returning
the updated value. -/
def OurError.set_constituent (self : OurError) (constituent : DynError) :
    OurError :=
  match self with
  | .mk _ b k => .mk (some (Suberror.Constituent constituent)) b k

/-- `OurError::set_previous`: in-place setter, modelled by returning the
updated value. -/
def OurError.set_previous (self : OurError) (previous : DynError) :
    OurError :=
  match self with
  | .mk _ b k => .mk (some (Suberror.Previous previous)) b k

/-- `OurError::previous`: the relation target only when the relation is
`Previous`. -/
def OurError.previous (self : OurError) : Option DynError :=
  match self.source_impl with
  | some (Suberror.Previous c) => some c
  | _ => none

/-- `OurError::constituent`: the relation target only when the relation
is `Constituent`. -/
def OurError.constituent (self : OurError) : Option DynError :=
  match self.source_impl with
  | some (Suberror.Constituent c) => some c
  | _ => none

/-- `Error::source for OurError`: the relation target regardless of
kind. -/
def OurError.source (self : OurError) : Option DynError :=
  self.source_impl.map fun c =>
    match c with
    | Suberror.Previous c => c
    | Suberror.Constituent c => c

/-- `Error::cause for OurError` (deprecated accessor, written out
separately in the source with an identical body). -/
def OurError.cause (self : OurError) : Option DynError :=
  self.source_impl.map fun c =>
    match c with
    | Suberror.Previous c => c
    | Suberror.Constituent c => c

/-- `impl Display for OurError`: only the message of `specifics`. -/
def OurError.fmt (self : OurError) : String :=
  self.specifics.fmt

/-- `downcast_ref::<OurError>` on a `dyn Error` reference. -/
def DynError.downcast_OurError : DynError → Option OurError
  | .ours e => some e
  | _ => none

/-- `downcast_ref::<std::io::Error>` on a `dyn Error` reference. -/
def DynError.downcast_IoError : DynError → Option IoError
  | .io e => some e
  | _ => none

/-- The foreign I/O error built in `fn b`. -/
def io_error : IoError := ⟨IoErrorKind.Other, "oh no!"⟩

/-- `fn b` from the demo driver. -/
def b : Except OurError Unit :=
  let ours := OurError.new OurErrorKind.ContextInitError
  let ours := ours.set_constituent (DynError.io io_error)
  Except.error ours

/-- `fn c` from the demo driver. -/
def c : Except OurError Unit := b

/-- `fn d` from the demo driver; `expect_err` on the concretely failing
`c()` is modelled by matching on the `Except` value. -/
def d : Except OurError Unit :=
  match c with
  | Except.error e =>
      Except.error
        ((e.set_extension
            (OurError.new (OurErrorKind.InvalidArgument "32"))).set_subsequent
          (OurError.new OurErrorKind.IoctlResultTooLarge))
  | Except.ok u => Except.ok u

/-- The `err` value bound at the top of `fn main`. -/
def mainErr : Option OurError :=
  match d with
  | Except.error e => some e
  | Except.ok _ => none

/-- A concrete error that already carries a relation, used as a witness
input. -/
def sample_linked : OurError :=
  (OurError.new OurErrorKind.ContextInitError).set_previous
    (DynError.io io_error)

/-- C4: for every `ErrorSpecifics` value `k`, the error built by `new k`
has no relation: `previous`, `constituent` and the generic `source`
lookup all return nothing (and, being a total function, the
construction never fails). -/
theorem C4_new_has_no_relation (k : OurErrorKind) :
    (OurError.new k).previous = none
      ∧ (OurError.new k).constituent = none
      ∧ (OurError.new k).source = none :=
  ⟨rfl, rfl, rfl⟩

/-- C2: for any errors `a`, `b`, the result of `a.set_extension b` (the
spec's `extend_with`) has a `constituent` that downcasts to `OurError`
as exactly `a`, hence with `a`'s original specifics, and its `previous`
returns nothing. -/
theorem C2_extend_with_sets_constituent (a bb : OurError) :
    ((a.set_extension bb).constituent.bind DynError.downcast_OurError)
        = some a
      ∧ ((a.set_extension bb).constituent.bind
          DynError.downcast_OurError).map OurError.specifics
        = some a.specifics
      ∧ (a.set_extension bb).previous = none := by
  cases bb with
  | mk s bt k => exact ⟨rfl, rfl, rfl⟩

/-- C3: for any errors `a`, `b`, the result of `a.set_subsequent b` (the
spec's `followed_by`) has a `previous` that downcasts to `OurError` as
exactly `a`, hence with `a`'s original specifics, and its `constituent`
returns nothing. -/
theorem C3_followed_by_sets_previous (a bb : OurError) :
    ((a.set_subsequent bb).previous.bind DynError.downcast_OurError)
        = some a
      ∧ ((a.set_subsequent bb).previous.bind
          DynError.downcast_OurError).map OurError.specifics
        = some a.specifics
      ∧ (a.set_subsequent bb).constituent = none := by
  cases bb with
  | mk s bt k => exact ⟨rfl, rfl, rfl⟩

/-- C5: on a node `e` that already carries a relation, each
relation-setting operation (`set_constituent`, `set_previous`, or being
the operand whose relation is written by `set_extension` /
`set_subsequent`) fully replaces the prior relation: afterwards only the
newly set relation is observable through `previous`, `constituent` and
`source`. -/
theorem C5_second_set_replaces (e a : OurError) (x : DynError)
    (h : e.source_impl.isSome = true) :
    ((e.set_constituent x).constituent = some x
        ∧ (e.set_constituent x).previous = none
        ∧ (e.set_constituent x).source = some x)
      ∧ ((e.set_previous x).previous = some x
        ∧ (e.set_previous x).constituent = none
        ∧ (e.set_previous x).source = some x)
      ∧ ((a.set_extension e).constituent = some (DynError.ours a)
        ∧ (a.set_extension e).previous = none
        ∧ (a.set_extension e).source = some (DynError.ours a))
      ∧ ((a.set_subsequent e).previous = some (DynError.ours a)
        ∧ (a.set_subsequent e).constituent = none
        ∧ (a.set_subsequent e).source = some (DynError.ours a)) := by
  cases e with
  | mk s bt k =>
      exact ⟨⟨rfl, rfl, rfl⟩, ⟨rfl, rfl, rfl⟩, ⟨rfl, rfl, rfl⟩,
        ⟨rfl, rfl, rfl⟩⟩

/-- Witness for C5 at a concrete node that already carries a `Previous`
relation. -/
theorem C5_second_set_replaces_witness :
    sample_linked.source_impl.isSome = true
      ∧ (((sample_linked.set_constituent (DynError.io io_error)).constituent
            = some (DynError.io io_error)
          ∧ (sample_linked.set_constituent (DynError.io io_error)).previous
            = none
          ∧ (sample_linked.set_constituent (DynError.io io_error)).source
            = some (DynError.io io_error))
        ∧ (((sample_linked.set_previous (DynError.io io_error)).previous
            = some (DynError.io io_error)
          ∧ (sample_linked.set_previous (DynError.io io_error)).constituent
            = none
          ∧ (sample_linked.set_previous (DynError.io io_error)).source
            = some (DynError.io io_error)))
        ∧ (((OurError.new OurErrorKind.IoctlResultTooLarge).set_extension
              sample_linked).constituent
            = some (DynError.ours (OurError.new OurErrorKind.IoctlResultTooLarge))
          ∧ ((OurError.new OurErrorKind.IoctlResultTooLarge).set_extension
              sample_linked).previous = none
          ∧ ((OurError.new OurErrorKind.IoctlResultTooLarge).set_extension
              sample_linked).source
            = some (DynError.ours (OurError.new OurErrorKind.IoctlResultTooLarge)))
        ∧ (((OurError.new OurErrorKind.IoctlResultTooLarge).set_subsequent
              sample_linked).previous
            = some (DynError.ours (OurError.new OurErrorKind.IoctlResultTooLarge))
          ∧ ((OurError.new OurErrorKind.IoctlResultTooLarge).set_subsequent
              sample_linked).constituent = none
          ∧ ((OurError.new OurErrorKind.IoctlResultTooLarge).set_subsequent
              sample_linked).source
            = some (DynError.ours (OurError.new OurErrorKind.IoctlResultTooLarge)))) :=
  ⟨rfl,
    C5_second_set_replaces sample_linked
      (OurError.new OurErrorKind.IoctlResultTooLarge)
      (DynError.io io_error) rfl⟩

/-- C6 counterexample: the claim says the kind of a relation is fixed
from the moment it is set, but `set_constituent` on the concrete node
`sample_linked`, whose relation is `Previous`, replaces it with a
`Constituent` relation. -/
theorem C6_kind_not_fixed_counterexample :
    sample_linked.previous.isSome = true
      ∧ (sample_linked.set_constituent (DynError.io io_error)).previous
        = none
      ∧ (sample_linked.set_constituent
          (DynError.io io_error)).constituent.isSome = true :=
  ⟨rfl, rfl, rfl⟩

/-- C6 (amended): on every error value the relation field holds either
nothing, a `Previous` reference, or a `Constituent` reference — never
both kinds simultaneously; a later relation-setting operation may
replace the relation, including its kind. -/
theorem C6_relation_exclusive (e : OurError) :
    (e.previous = none ∧ e.constituent = none ∧ e.source = none)
      ∨ (e.previous.isSome = true ∧ e.constituent = none)
      ∨ (e.constituent.isSome = true ∧ e.previous = none) := by
  cases e with
  | mk s bt k =>
      cases s with
      | none => exact Or.inl ⟨rfl, rfl, rfl⟩
      | some sub =>
          cases sub with
          | Previous cc => exact Or.inr (Or.inl ⟨rfl, rfl⟩)
          | Constituent cc => exact Or.inr (Or.inr ⟨rfl, rfl⟩)

/-- C7: the Display-rendered message of every error equals the rendered
message of its `specifics` alone, and attaching a relation of either
kind, by any of the four operations, leaves the message unchanged. -/
theorem C7_display_only_specifics (e : OurError) :
    e.fmt = e.specifics.fmt
      ∧ (∀ x : DynError, (e.set_constituent x).fmt = e.fmt)
      ∧ (∀ x : DynError, (e.set_previous x).fmt = e.fmt)
      ∧ (∀ a : OurError, (a.set_extension e).fmt = e.fmt)
      ∧ (∀ a : OurError, (a.set_subsequent e).fmt = e.fmt) := by
  cases e with
  | mk s bt k =>
      exact ⟨rfl, fun x => rfl, fun x => rfl, fun a => rfl, fun a => rfl⟩

/-- C8: the generic `source` lookup returns the relation target whatever
its kind — it equals `previous` when that is present and `constituent`
otherwise, and it is present exactly when one of the two is. -/
theorem C8_source_is_relation_target (e : OurError) :
    e.source = e.previous.orElse (fun _ => e.constituent)
      ∧ e.source.isSome = (e.previous.isSome || e.constituent.isSome) := by
  cases e with
  | mk s bt k =>
      cases s with
      | none => exact ⟨rfl, rfl⟩
      | some sub =>
          cases sub with
          | Previous cc => exact ⟨rfl, rfl⟩
          | Constituent cc => exact ⟨rfl, rfl⟩

/-- C9: downcasting a generic error reference to the wrong concrete type
returns a definite `none` and to its actual concrete type returns the
value itself; the downcast functions are total, so no panic or corrupt
result is possible. -/
theorem C9_downcast_deterministic :
    (∀ e : OurError,
        DynError.downcast_OurError (DynError.ours e) = some e
          ∧ DynError.downcast_IoError (DynError.ours e) = none)
      ∧ (∀ i : IoError,
        DynError.downcast_IoError (DynError.io i) = some i
          ∧ DynError.downcast_OurError (DynError.io i) = none) :=
  ⟨fun e => ⟨rfl, rfl⟩, fun i => ⟨rfl, rfl⟩⟩

/-- C10: the deprecated `cause` accessor is extensionally equal to
`source`. -/
theorem C10_cause_eq_source (e : OurError) : e.cause = e.source := rfl

/-- C1: end-to-end scenario of `fn main`: `head.previous` downcasts to
`OurError` with specifics `InvalidArgument "32"` and agrees with
`head.source`, whose downcast to `std::io::Error` fails;
`head.constituent` is nothing; the `InvalidArgument` node's constituent
downcasts to `OurError` with specifics `ContextInitError`; and that
node's generic source downcasts successfully to the foreign
`std::io::Error` and unsuccessfully to `OurError`. -/
theorem C1_end_to_end_scenario :
    mainErr.isSome = true
      ∧ ((mainErr.bind OurError.source).bind
          DynError.downcast_OurError).map OurError.specifics
        = some (OurErrorKind.InvalidArgument "32")
      ∧ (mainErr.bind OurError.source).bind DynError.downcast_IoError
        = none
      ∧ ((mainErr.bind OurError.previous).bind
          DynError.downcast_OurError).map OurError.specifics
        = some (OurErrorKind.InvalidArgument "32")
      ∧ mainErr.bind OurError.constituent = none
      ∧ ((((mainErr.bind OurError.previous).bind
            DynError.downcast_OurError).bind OurError.constituent).bind
          DynError.downcast_OurError).map OurError.specifics
        = some OurErrorKind.ContextInitError
      ∧ (((((mainErr.bind OurError.previous).bind
            DynError.downcast_OurError).bind OurError.constituent).bind
          DynError.downcast_OurError).bind OurError.source).bind
          DynError.downcast_IoError
        = some io_error
      ∧ (((((mainErr.bind OurError.previous).bind
            DynError.downcast_OurError).bind OurError.constituent).bind
          DynError.downcast_OurError).bind OurError.source).bind
          DynError.downcast_OurError
        = none :=
  ⟨rfl, rfl, rfl, rfl, rfl, rfl, rfl, rfl⟩

end ErrMgmt
